import Mathlib

/-!
Shallow embedding of `src/src/ui/studio-dynamic.py` (class `DynamicStudio`).

JSON values coming out of `json.loads` are modelled by the inductive `Json`.
Python dicts with string keys (message payloads, component descriptors) are
association lists `List (String × Json)` with unique keys, looked up by
`getField` and mutated in place by `setField` (replace the first matching
binding, keeping its key, else append — the semantics of CPython dict
assignment and of `dict.update` for unique-key dicts).

`self.components` is a dict whose keys are arbitrary hashable values produced
by `component.get(...)`; it is modelled as `List (Json × Json)` with key
comparison `keyEq` (Python `==` on the hashable JSON values; `True == 1` and
`False == 0` as in CPython).  Storing under an unhashable key (a JSON list or
object) raises `TypeError` in Python and is modelled by `PyError.typeError`.

Raising Python code is modelled in the `Except PyError` monad; the
`try/except` in `handle_message` is the catch-all at the bottom.  In every
handler each raise point precedes the first registry mutation (`.get` on a
non-dict, the hashability check of a dict key, `dict.update` applied to a
non-mapping), so a raising handler leaves the state unchanged, which the
all-or-nothing `Except` encoding reflects.  (`dict.update` applied to a
non-mapping raises for the payload shapes reachable here — null, bool,
number, plain string, nested object; a JSON list of two-element pairs, which
CPython would consume, is not modelled.)

The WebSocket transport is the boundary of the embedding: connections are
`Nat` identifiers kept in the `websocket_clients` list, and the outcome of
`await client.send(...)` is a parameter `sendOk : Nat → Bool`
(`sendOk c = false` models `websockets.exceptions.ConnectionClosed`).
`json.dumps` is injective on these values, so broadcasts carry the `Json`
message itself.  Timestamps (`datetime.now().isoformat()`) are an explicit
`String` parameter.
-/

inductive Json where
  | null : Json
  | bool : Bool → Json
  | num : Int → Json
  | str : String → Json
  | arr : List Json → Json
  | obj : List (String × Json) → Json

/-- Exceptions raised by the Python code paths modelled here. -/
inductive PyError where
  | typeError : PyError
  | attributeError : PyError
  | valueError : PyError
  | osError : PyError
deriving DecidableEq

/-- The failure of `json.loads` (`json.JSONDecodeError`). -/
inductive JsonParseError where
  | jsonDecodeError : JsonParseError
deriving DecidableEq

/-- Events written through `logger` that the claims talk about. -/
inductive LogEvent where
  | errorParsing : LogEvent
  | errorHandling : PyError → LogEvent
  | warnUnknownType : Json → LogEvent

/-- Python truthiness of a JSON value (`if component_id:` etc.). -/
def truthy : Json → Bool
  | .null => false
  | .bool b => b
  | .num n => n != 0
  | .str s => s != ""
  | .arr l => !l.isEmpty
  | .obj l => !l.isEmpty

/-- Whether a JSON value is hashable in Python (usable as a dict key). -/
def isHashable : Json → Bool
  | .arr _ => false
  | .obj _ => false
  | _ => true

/-- Python `==` on hashable JSON values, as used for dict-key comparison
(`True == 1`, `False == 0`). -/
def keyEq : Json → Json → Bool
  | .null, .null => true
  | .bool a, .bool b => a == b
  | .bool a, .num b => (if a then (1 : Int) else 0) == b
  | .num a, .bool b => a == (if b then (1 : Int) else 0)
  | .num a, .num b => a == b
  | .str a, .str b => a == b
  | _, _ => false

/-- Dict lookup by string key. -/
def getField : List (String × Json) → String → Option Json
  | [], _ => none
  | f :: fs, k => if f.1 == k then some f.2 else getField fs k

/-- Dict assignment `d[k] = v`: replace the first binding of `k` in place
(keeping the stored key), else append. -/
def setField : List (String × Json) → String → Json → List (String × Json)
  | [], k, v => [(k, v)]
  | f :: fs, k, v => if f.1 == k then (f.1, v) :: fs else f :: setField fs k v

/-- `base.update(upd)` for two dicts: assign each binding of `upd` in order. -/
def dictUpdate (base upd : List (String × Json)) : List (String × Json) :=
  upd.foldl (fun acc p => setField acc p.1 p.2) base

/-- `value.get(k)`: returns `None` for a missing key and raises
`AttributeError` when `value` is not a dict. -/
def pyGet : Json → String → Except PyError Json
  | .obj fs, k => .ok ((getField fs k).getD Json.null)
  | _, _ => .error PyError.attributeError

/-- Python `==` between a JSON value and a string literal
(`message_type == "ui.studio.update"` etc.). -/
def jsonStrEq (j : Json) (s : String) : Bool :=
  match j with
  | .str s2 => s2 == s
  | _ => false

/-- Lookup in `self.components` (Python dict with hashable JSON keys). -/
def lookupEntry : List (Json × Json) → Json → Option Json
  | [], _ => none
  | e :: es, k => if keyEq e.1 k then some e.2 else lookupEntry es k

/-- `self.components[k] = v`. -/
def setEntry : List (Json × Json) → Json → Json → List (Json × Json)
  | [], k, v => [(k, v)]
  | e :: es, k, v => if keyEq e.1 k then (e.1, v) :: es else e :: setEntry es k v

/-- `del self.components[k]` (the key is known to be present at call sites). -/
def delEntry : List (Json × Json) → Json → List (Json × Json)
  | [], _ => []
  | e :: es, k => if keyEq e.1 k then es else e :: delEntry es k

/-- The module-level `STUDIO_CONFIG` dict. -/
def STUDIO_CONFIG : List (String × Json) :=
  [("host", Json.str "localhost"),
   ("port", Json.num 8080),
   ("websocket_port", Json.num 8081),
   ("enable_mcp", Json.bool true),
   ("enable_openjson_ui", Json.bool true),
   ("enable_realtime", Json.bool true)]

/-- The instance state of `DynamicStudio`. -/
structure StudioState where
  config : List (String × Json)
  components : List (Json × Json)
  event_stream : List Json
  websocket_clients : List Nat
  is_running : Bool

namespace DynamicStudio

/-- `DynamicStudio.__init__`: merge the optional config over `STUDIO_CONFIG`,
start with an empty registry, event stream and connection list, not running. -/
def studioInit (config : Option (List (String × Json))) : StudioState :=
  { config := dictUpdate STUDIO_CONFIG (config.getD [])
    components := []
    event_stream := []
    websocket_clients := []
    is_running := false }

/-- One pass of the `for client in self.websocket_clients` loop of
`broadcast_message`: first component collects the successful sends (each
client paired with the message it received), second collects
`disconnected_clients`. -/
def broadcastLoop (sendOk : Nat → Bool) (msg : Json) :
    List Nat → List (Nat × Json) × List Nat
  | [] => ([], [])
  | c :: cs =>
    let r := broadcastLoop sendOk msg cs
    if sendOk c then ((c, msg) :: r.1, r.2) else (r.1, c :: r.2)

/-- `DynamicStudio.broadcast_message`: send to every client, collecting the
clients whose send raised `ConnectionClosed`, then remove each of those from
the client list.  Returns the new client list and the deliveries made. -/
def broadcast_message (clients : List Nat) (sendOk : Nat → Bool) (msg : Json) :
    List Nat × List (Nat × Json) :=
  let r := broadcastLoop sendOk msg clients
  (r.2.foldl List.erase clients, r.1)

/-- Python `list.remove`: drop the first occurrence, raise `ValueError` when
the element is absent. -/
def listRemove (l : List Nat) (c : Nat) : Except PyError (List Nat) :=
  if c ∈ l then .ok (l.erase c) else .error PyError.valueError

/-- The removal loop of `broadcast_message`
(`for client in disconnected_clients: self.websocket_clients.remove(client)`)
written with the raising `list.remove`. -/
def removeAllM (l : List Nat) : List Nat → Except PyError (List Nat)
  | [] => .ok l
  | d :: ds =>
    match listRemove l d with
    | .error e => .error e
    | .ok l2 => removeAllM l2 ds

/-- The `finally` block of `DynamicStudio.handle_websocket`:
`self.websocket_clients.remove(websocket)`. -/
def handle_websocket_cleanup (clients : List Nat) (websocket : Nat) :
    Except PyError (List Nat) :=
  listRemove clients websocket

/-- `DynamicStudio.start`: warn and return if already running, otherwise set
`is_running` and then bind the WebSocket server; `bindResult` is the outcome
of `websockets.serve`, whose failure propagates to the caller.  Returns the
state as left by the call together with the surfaced error, if any. -/
def start (s : StudioState) (bindResult : Except PyError Unit) :
    StudioState × Option PyError :=
  if s.is_running then (s, none)
  else
    let s1 := { s with is_running := true }
    match bindResult with
    | .ok _ => (s1, none)
    | .error e => (s1, some e)

/-- `DynamicStudio.stop`: return if not running, otherwise clear the running
flag, close every client (returned as the second component) and clear the
client list. -/
def stop (s : StudioState) : StudioState × List Nat :=
  if s.is_running then
    ({ s with is_running := false, websocket_clients := [] },
     s.websocket_clients)
  else (s, [])

/-- `DynamicStudio.handle_ui_update`. -/
def handle_ui_update (s : StudioState) (sendOk : Nat → Bool)
    (component : Json) (ts : String) :
    Except PyError (StudioState × List Json) :=
  match pyGet component "id" with
  | .error e => .error e
  | .ok component_id =>
    if truthy component_id then
      if isHashable component_id then
        let s1 := { s with components := setEntry s.components component_id component }
        let msg := Json.obj [("type", Json.str "ui.studio.update"),
                             ("component", component),
                             ("timestamp", Json.str ts)]
        let br := broadcast_message s1.websocket_clients sendOk msg
        .ok ({ s1 with websocket_clients := br.1 }, [msg])
      else .error PyError.typeError
    else .ok (s, [])

/-- `DynamicStudio.handle_mcp_tool_call`: the response is synthesized with
`success: True`, empty `data` and empty `components` (the TODO backend call). -/
def handle_mcp_tool_call (s : StudioState) (sendOk : Nat → Bool)
    (tool args : Json) (ts : String) :
    Except PyError (StudioState × List Json) :=
  let response := Json.obj [("success", Json.bool true),
                            ("tool", tool),
                            ("data", Json.obj []),
                            ("components", Json.arr [])]
  let msg := Json.obj [("type", Json.str "ui.mcp.tool.response"),
                       ("response", response),
                       ("timestamp", Json.str ts)]
  let br := broadcast_message s.websocket_clients sendOk msg
  .ok ({ s with websocket_clients := br.1 }, [msg])

/-- `DynamicStudio.handle_component_create`: the key is
`component.get("id") or component.get("componentId")` (the second lookup is
evaluated only when the first is falsy). -/
def handle_component_create (s : StudioState) (sendOk : Nat → Bool)
    (component : Json) (ts : String) :
    Except PyError (StudioState × List Json) :=
  match pyGet component "id" with
  | .error e => .error e
  | .ok idv =>
    match (if truthy idv then Except.ok idv else pyGet component "componentId") with
    | .error e => .error e
    | .ok component_id =>
      if truthy component_id then
        if isHashable component_id then
          let s1 := { s with components := setEntry s.components component_id component }
          let msg := Json.obj [("type", Json.str "ui.component.create"),
                               ("component", component),
                               ("timestamp", Json.str ts)]
          let br := broadcast_message s1.websocket_clients sendOk msg
          .ok ({ s1 with websocket_clients := br.1 }, [msg])
        else .error PyError.typeError
      else .ok (s, [])

/-- `DynamicStudio.handle_component_update`: when the id is present,
`self.components[component_id].update(props)` merges `props` into the stored
component dict itself (not into its "props" entry). -/
def handle_component_update (s : StudioState) (sendOk : Nat → Bool)
    (component_id props : Json) (ts : String) :
    Except PyError (StudioState × List Json) :=
  if isHashable component_id then
    match lookupEntry s.components component_id with
    | some comp =>
      match comp, props with
      | .obj cf, .obj ps =>
        let s1 := { s with components := setEntry s.components component_id (Json.obj (dictUpdate cf ps)) }
        let msg := Json.obj [("type", Json.str "ui.component.update"),
                             ("componentId", component_id),
                             ("props", props),
                             ("timestamp", Json.str ts)]
        let br := broadcast_message s1.websocket_clients sendOk msg
        .ok ({ s1 with websocket_clients := br.1 }, [msg])
      | _, _ => .error PyError.typeError
    | none => .ok (s, [])
  else .error PyError.typeError

/-- `DynamicStudio.handle_component_delete`. -/
def handle_component_delete (s : StudioState) (sendOk : Nat → Bool)
    (component_id : Json) (ts : String) :
    Except PyError (StudioState × List Json) :=
  if isHashable component_id then
    match lookupEntry s.components component_id with
    | some _ =>
      let s1 := { s with components := delEntry s.components component_id }
      let msg := Json.obj [("type", Json.str "ui.component.delete"),
                           ("componentId", component_id),
                           ("timestamp", Json.str ts)]
      let br := broadcast_message s1.websocket_clients sendOk msg
      .ok ({ s1 with websocket_clients := br.1 }, [msg])
    | none => .ok (s, [])
  else .error PyError.typeError

/-- The dispatch on `data.get("type")` inside the `try` block of
`DynamicStudio.handle_message`.  The third component of the result collects
the log events of interest. -/
def dispatchCore (s : StudioState) (sendOk : Nat → Bool) (data : Json)
    (ts : String) :
    Except PyError (StudioState × List Json × List LogEvent) :=
  match pyGet data "type" with
  | .error e => .error e
  | .ok message_type =>
    if jsonStrEq message_type "ui.studio.update" then
      match pyGet data "component" with
      | .error e => .error e
      | .ok component =>
        match handle_ui_update s sendOk component ts with
        | .error e => .error e
        | .ok r => .ok (r.1, r.2, [])
    else if jsonStrEq message_type "ui.mcp.tool.call" then
      match pyGet data "tool" with
      | .error e => .error e
      | .ok tool =>
        match pyGet data "args" with
        | .error e => .error e
        | .ok args =>
          match handle_mcp_tool_call s sendOk tool args ts with
          | .error e => .error e
          | .ok r => .ok (r.1, r.2, [])
    else if jsonStrEq message_type "ui.component.create" then
      match pyGet data "component" with
      | .error e => .error e
      | .ok component =>
        match handle_component_create s sendOk component ts with
        | .error e => .error e
        | .ok r => .ok (r.1, r.2, [])
    else if jsonStrEq message_type "ui.component.update" then
      match pyGet data "componentId" with
      | .error e => .error e
      | .ok component_id =>
        match pyGet data "props" with
        | .error e => .error e
        | .ok props =>
          match handle_component_update s sendOk component_id props ts with
          | .error e => .error e
          | .ok r => .ok (r.1, r.2, [])
    else if jsonStrEq message_type "ui.component.delete" then
      match pyGet data "componentId" with
      | .error e => .error e
      | .ok component_id =>
        match handle_component_delete s sendOk component_id ts with
        | .error e => .error e
        | .ok r => .ok (r.1, r.2, [])
    else .ok (s, [], [LogEvent.warnUnknownType message_type])

/-- `DynamicStudio.handle_message`: `json.loads` failure is the
`except json.JSONDecodeError` branch, every other exception is caught by
`except Exception` and logged; the result is the new state, the broadcasts
emitted and the log events. -/
def handle_message (s : StudioState) (sendOk : Nat → Bool)
    (input : Except JsonParseError Json) (ts : String) :
    StudioState × List Json × List LogEvent :=
  match input with
  | .error _ => (s, [], [LogEvent.errorParsing])
  | .ok data =>
    match dispatchCore s sendOk data ts with
    | .ok r => r
    | .error e => (s, [], [LogEvent.errorHandling e])

/-- A sequence of handled inbound frames, each with its transport outcome
function and broadcast timestamp. -/
def processAll (s : StudioState)
    (msgs : List (Except JsonParseError Json × (Nat → Bool) × String)) :
    StudioState :=
  msgs.foldl (fun st m => (handle_message st m.2.1 m.1 m.2.2).1) s

end DynamicStudio

/-- One registry entry satisfies the spec invariant: it is keyed by a
non-empty string equal to the stored component's own "id" field. -/
def entryInv : Json × Json → Bool
  | (.str k, .obj cf) =>
    (!(k == "")) &&
      (match getField cf "id" with
       | some (.str k2) => k == k2
       | _ => false)
  | _ => false

/-- The spec invariant over the whole registry (claim C2 as stated). -/
def registryInv (reg : List (Json × Json)) : Bool :=
  reg.all entryInv

/-- A component payload whose id handling cannot break the registry
invariant: when it is a dict, either its "id" is a (necessarily non-empty,
by truthiness) string, or both its "id" and its "componentId" are falsy so
that the handler does not store it. -/
def benignComponentJ : Json → Bool
  | .obj cf =>
    let idv := (getField cf "id").getD Json.null
    if truthy idv then
      match idv with
      | .str _ => true
      | _ => false
    else !truthy ((getField cf "componentId").getD Json.null)
  | _ => true

/-- An inbound frame that cannot break the registry invariant: create and
studio-update payloads carry benign components, and update payloads carry a
dict of props that does not touch the "id" key. -/
def benignMsg : Json → Bool
  | .obj fs =>
    let mt := (getField fs "type").getD Json.null
    if jsonStrEq mt "ui.studio.update" then
      benignComponentJ ((getField fs "component").getD Json.null)
    else if jsonStrEq mt "ui.component.create" then
      benignComponentJ ((getField fs "component").getD Json.null)
    else if jsonStrEq mt "ui.component.update" then
      match (getField fs "props").getD Json.null with
      | .obj ps => ps.all fun p => !(p.1 == "id")
      | _ => false
    else true
  | _ => true

/-- Benignity lifted to the outcome of `json.loads` (malformed frames are
dropped, hence benign). -/
def benignInput : Except JsonParseError Json → Bool
  | .error _ => true
  | .ok data => benignMsg data

/-- Whether a `DecodeError` (the `except json.JSONDecodeError` branch) was
logged. -/
def hasParseErrorLog (logs : List LogEvent) : Bool :=
  logs.any fun ev =>
    match ev with
    | .errorParsing => true
    | _ => false

namespace DynamicStudio

/-- C10: for every tool.call message, regardless of tool name and arguments,
the broadcast tool.response carries success = true, an empty data object and
an empty components list, the Component Registry is left unchanged, and no
other (failure) response is emitted. -/
theorem C10_tool_call_always_succeeds (s : StudioState) (sendOk : Nat → Bool)
    (tool args : Json) (ts : String) :
    ∃ clients2 : List Nat,
      handle_mcp_tool_call s sendOk tool args ts =
        .ok ({ s with websocket_clients := clients2 },
          [Json.obj [("type", Json.str "ui.mcp.tool.response"),
                     ("response", Json.obj [("success", Json.bool true),
                                            ("tool", tool),
                                            ("data", Json.obj []),
                                            ("components", Json.arr [])]),
                     ("timestamp", Json.str ts)]]) ∧
      ({ s with websocket_clients := clients2 } : StudioState).components = s.components :=
  ⟨(broadcast_message s.websocket_clients sendOk
      (Json.obj [("type", Json.str "ui.mcp.tool.response"),
                 ("response", Json.obj [("success", Json.bool true),
                                        ("tool", tool),
                                        ("data", Json.obj []),
                                        ("components", Json.arr [])]),
                 ("timestamp", Json.str ts)])).1,
   rfl, rfl⟩

/-- C6 counterexample: from a running state whose registry holds a component,
`stop` leaves the registry non-empty — it is not cleared at server stop as the
claim states. -/
theorem C6_counterexample :
    ((stop { studioInit none with
        is_running := true,
        components := [(Json.str "c1", Json.obj [("id", Json.str "c1")])] }).1).components
      ≠ [] := by
  intro h
  exact List.noConfusion h

/-- C6 (amended): the Component Registry is created empty at construction,
and `stop` never changes it (it clears only the connection list). -/
theorem C6_registry_empty_at_init_not_cleared_at_stop :
    (studioInit none).components = [] ∧
      ∀ s : StudioState, ((stop s).1).components = s.components := by
  refine ⟨rfl, fun s => ?_⟩
  unfold stop
  cases h : s.is_running <;> simp [h]

/-- C7 counterexample: starting from a stopped server, a failing bind leaves
`is_running` set — the state does not revert to Stopped as the claim states. -/
theorem C7_counterexample :
    ¬(((start (studioInit none) (.error PyError.osError)).1).is_running = false) := by
  decide

/-- C7 (amended): from a stopped state, `start` marks the server running
before attempting the bind; when the bind fails the error surfaces to the
caller but the server remains marked running. -/
theorem C7_bind_failure_leaves_running (s : StudioState) (e : PyError)
    (h : s.is_running = false) :
    start s (.error e) = ({ s with is_running := true }, some e) := by
  unfold start
  rw [h]
  rfl

/-- C7 witness: the amended behavior at the freshly constructed state with a
failing bind. -/
theorem C7_witness :
    (studioInit none).is_running = false ∧
      start (studioInit none) (.error PyError.osError) =
        ({ studioInit none with is_running := true }, some PyError.osError) :=
  ⟨rfl, C7_bind_failure_leaves_running (studioInit none) PyError.osError rfl⟩

/-- C8 counterexample: one client whose send fails is pruned by
`broadcast_message`; the close-path removal in the handler's `finally` block
then raises ValueError — removal of an absent connection is not a silent
no-op as the claim states. -/
theorem C8_counterexample :
    handle_websocket_cleanup
      ((broadcast_message [7] (fun _ => false) (Json.obj [])).1) 7
      = .error PyError.valueError := rfl

/-- C8 (amended): removing a connection that is not in the connection list
raises ValueError (Python `list.remove`); removal is not idempotent. -/
theorem C8_remove_absent_raises (l : List Nat) (c : Nat) (h : c ∉ l) :
    listRemove l c = .error PyError.valueError := by
  unfold listRemove
  rw [if_neg h]

/-- C8 witness: removing 3 from the singleton list [5] raises. -/
theorem C8_witness :
    (3 : Nat) ∉ [5] ∧ listRemove [5] 3 = .error PyError.valueError :=
  ⟨by decide, C8_remove_absent_raises [5] 3 (by decide)⟩

/-- C5: a component.update or component.delete whose componentId is absent
from the registry is a silent no-op — the state is returned unchanged and no
broadcast is emitted. -/
theorem C5_unknown_id_silent_noop (s : StudioState) (sendOk : Nat → Bool)
    (component_id props : Json) (ts : String)
    (h1 : isHashable component_id = true)
    (h2 : lookupEntry s.components component_id = none) :
    handle_component_update s sendOk component_id props ts = .ok (s, []) ∧
      handle_component_delete s sendOk component_id ts = .ok (s, []) := by
  constructor
  · unfold handle_component_update
    rw [h1, h2]
    rfl
  · unfold handle_component_delete
    rw [h1, h2]
    rfl

/-- C5 witness: update and delete of the absent id "c1" on the empty registry
(the state after any successful delete of "c1") are no-ops. -/
theorem C5_witness :
    isHashable (Json.str "c1") = true ∧
      lookupEntry (studioInit none).components (Json.str "c1") = none ∧
      handle_component_update (studioInit none) (fun _ => true) (Json.str "c1")
        (Json.obj [("k", Json.str "v2")]) "t" = .ok (studioInit none, []) ∧
      handle_component_delete (studioInit none) (fun _ => true) (Json.str "c1") "t"
        = .ok (studioInit none, []) :=
  ⟨rfl, rfl,
   (C5_unknown_id_silent_noop (studioInit none) (fun _ => true) (Json.str "c1")
     (Json.obj [("k", Json.str "v2")]) "t" rfl rfl).1,
   (C5_unknown_id_silent_noop (studioInit none) (fun _ => true) (Json.str "c1")
     (Json.obj [("k", Json.str "v2")]) "t" rfl rfl).2⟩

/-- C1: evaluation of `handle_component_update` at the claim's own scenario
(create with props {} then merge_props(id, {"k": v})): the props merge lands
on the component dict itself — the stored component keeps "props" equal to {}
and gains a top-level "k" key — instead of yielding props {"k": v} as the
claim (and spec §8) state. -/
theorem C1_update_merges_into_component_dict :
    handle_component_update
      { studioInit none with
        components := [(Json.str "c1",
          Json.obj [("id", Json.str "c1"), ("kind", Json.str "card"),
                    ("props", Json.obj [])])] }
      (fun _ => true) (Json.str "c1") (Json.obj [("k", Json.str "v")]) "t"
    = .ok
      ({ studioInit none with
        components := [(Json.str "c1",
          Json.obj [("id", Json.str "c1"), ("kind", Json.str "card"),
                    ("props", Json.obj []), ("k", Json.str "v")])] },
       [Json.obj [("type", Json.str "ui.component.update"),
                  ("componentId", Json.str "c1"),
                  ("props", Json.obj [("k", Json.str "v")]),
                  ("timestamp", Json.str "t")]]) ∧
    getField [("id", Json.str "c1"), ("kind", Json.str "card"),
              ("props", Json.obj []), ("k", Json.str "v")] "props"
      = some (Json.obj []) :=
  ⟨rfl, rfl⟩

/-- C9: every exception raised while dispatching a decoded message is caught
by `handle_message`; the state is returned unchanged (the error is isolated
to that message), the error is logged, and no error escapes (so the
connection's read loop continues). -/
theorem C9_dispatch_errors_caught (s : StudioState) (sendOk : Nat → Bool)
    (data : Json) (ts : String) (e : PyError)
    (h : dispatchCore s sendOk data ts = .error e) :
    handle_message s sendOk (.ok data) ts = (s, [], [LogEvent.errorHandling e]) := by
  show (match dispatchCore s sendOk data ts with
        | .ok r => r
        | .error e2 => (s, [], [LogEvent.errorHandling e2])) =
      (s, [], [LogEvent.errorHandling e])
  rw [h]

/-- C9 witness: a studio.update frame with no component payload raises
AttributeError inside the handler; `handle_message` absorbs it. -/
theorem C9_witness :
    dispatchCore (studioInit none) (fun _ => true)
      (Json.obj [("type", Json.str "ui.studio.update")]) "t"
      = .error PyError.attributeError ∧
    handle_message (studioInit none) (fun _ => true)
      (.ok (Json.obj [("type", Json.str "ui.studio.update")])) "t"
      = (studioInit none, [], [LogEvent.errorHandling PyError.attributeError]) :=
  ⟨rfl, C9_dispatch_errors_caught (studioInit none) (fun _ => true)
    (Json.obj [("type", Json.str "ui.studio.update")]) "t" PyError.attributeError rfl⟩

end DynamicStudio

namespace DynamicStudio

theorem broadcastLoop_eq (sendOk : Nat → Bool) (msg : Json) (cs : List Nat) :
    broadcastLoop sendOk msg cs =
      ((cs.filter sendOk).map (fun c => (c, msg)),
       cs.filter (fun c => !sendOk c)) := by
  induction cs with
  | nil => rfl
  | cons c cs ih =>
    unfold broadcastLoop
    rw [ih]
    cases hc : sendOk c <;> simp [List.filter_cons, hc]

theorem foldl_erase_cons (x : Nat) (ds : List Nat) (hx : ∀ c ∈ ds, c ≠ x) :
    ∀ acc : List Nat,
      List.foldl List.erase (x :: acc) ds = x :: List.foldl List.erase acc ds := by
  induction ds with
  | nil => intro acc; rfl
  | cons d ds ih =>
    intro acc
    have hdx : ¬(x == d) := by
      simp only [beq_iff_eq]
      intro hh
      exact hx d (List.mem_cons_self d ds) hh.symm
    simp only [List.foldl_cons, List.erase_cons_tail hdx]
    exact ih (fun c hc => hx c (List.mem_cons_of_mem d hc)) (acc.erase d)

theorem foldl_erase_filter (l : List Nat) (p : Nat → Bool) :
    List.foldl List.erase l (l.filter fun c => !p c) = l.filter p := by
  induction l with
  | nil => rfl
  | cons x xs ih =>
    cases hp : p x
    · simp only [List.filter_cons, hp, Bool.not_false, if_true, cond_true,
        List.foldl_cons, List.erase_cons_head]
      simpa [List.filter_cons, hp] using ih
    · have hds : (x :: xs).filter (fun c => !p c) = xs.filter (fun c => !p c) := by
        simp [List.filter_cons, hp]
      rw [hds, foldl_erase_cons x _ ?hx xs]
      · rw [ih]
        simp [List.filter_cons, hp]
      case hx =>
        intro c hc hcx
        have := List.of_mem_filter hc
        rw [hcx] at this
        simp [hp] at this

theorem removeAllM_cons (x : Nat) (ds : List Nat) (hx : ∀ c ∈ ds, c ≠ x) :
    ∀ acc : List Nat,
      removeAllM (x :: acc) ds = Except.map (fun l => x :: l) (removeAllM acc ds) := by
  induction ds with
  | nil => intro acc; rfl
  | cons d ds ih =>
    intro acc
    have hdx : d ≠ x := hx d (List.mem_cons_self d ds)
    have hmem : d ∈ x :: acc ↔ d ∈ acc := by
      simp [List.mem_cons, hdx]
    by_cases hd : d ∈ acc
    · have h1 : listRemove (x :: acc) d = .ok (x :: acc.erase d) := by
        unfold listRemove
        rw [if_pos (hmem.mpr hd), List.erase_cons_tail (by simpa using fun hh => hdx hh.symm)]
      have h2 : listRemove acc d = .ok (acc.erase d) := by
        unfold listRemove
        rw [if_pos hd]
      unfold removeAllM
      rw [h1, h2]
      exact ih (fun c hc => hx c (List.mem_cons_of_mem d hc)) (acc.erase d)
    · have h1 : listRemove (x :: acc) d = .error PyError.valueError := by
        unfold listRemove
        rw [if_neg (fun hh => hd (hmem.mp hh))]
      have h2 : listRemove acc d = .error PyError.valueError := by
        unfold listRemove
        rw [if_neg hd]
      unfold removeAllM
      rw [h1, h2]
      rfl

theorem removeAllM_filter (l : List Nat) (p : Nat → Bool) :
    removeAllM l (l.filter fun c => !p c) = .ok (l.filter p) := by
  induction l with
  | nil => rfl
  | cons x xs ih =>
    cases hp : p x
    · have hds : (x :: xs).filter (fun c => !p c) = x :: xs.filter (fun c => !p c) := by
        simp [List.filter_cons, hp]
      rw [hds]
      have h1 : listRemove (x :: xs) x = .ok xs := by
        unfold listRemove
        rw [if_pos (List.mem_cons_self x xs), List.erase_cons_head]
      show (match listRemove (x :: xs) x with
            | .error e => Except.error e
            | .ok l2 => removeAllM l2 (xs.filter fun c => !p c)) =
          Except.ok ((x :: xs).filter p)
      rw [h1]
      show removeAllM xs (xs.filter fun c => !p c) = Except.ok ((x :: xs).filter p)
      rw [ih]
      simp [List.filter_cons, hp]
    · have hds : (x :: xs).filter (fun c => !p c) = xs.filter (fun c => !p c) := by
        simp [List.filter_cons, hp]
      rw [hds, removeAllM_cons x _ ?hx xs, ih]
      · simp [List.filter_cons, hp, Except.map]
      case hx =>
        intro c hc hcx
        have := List.of_mem_filter hc
        rw [hcx] at this
        simp [hp] at this

theorem broadcast_message_eq (clients : List Nat) (sendOk : Nat → Bool) (msg : Json) :
    broadcast_message clients sendOk msg =
      (clients.filter sendOk, (clients.filter sendOk).map (fun c => (c, msg))) := by
  unfold broadcast_message
  rw [broadcastLoop_eq]
  simp only
  rw [show ∀ ds : List Nat, ds.foldl List.erase clients = List.foldl List.erase clients ds
        from fun _ => rfl,
      foldl_erase_filter]

/-- C3: every connection in the client list when `broadcast_message` begins
either receives the message (its send succeeded) or is removed from the list
by the attempt; a send failure on one connection does not prevent delivery to
the remaining ones, and the removal loop itself never raises (the failure is
not surfaced to the caller). -/
theorem C3_broadcast_deliver_or_prune (clients : List Nat) (sendOk : Nat → Bool)
    (msg : Json) (c : Nat) (hc : c ∈ clients) :
    (sendOk c = true → (c, msg) ∈ (broadcast_message clients sendOk msg).2) ∧
    (sendOk c = false → c ∉ (broadcast_message clients sendOk msg).1) ∧
    removeAllM clients (clients.filter fun x => !sendOk x) =
      .ok ((broadcast_message clients sendOk msg).1) := by
  rw [broadcast_message_eq]
  refine ⟨fun hok => ?_, fun hfail => ?_, ?_⟩
  · exact List.mem_map_of_mem _ (List.mem_filter.mpr ⟨hc, hok⟩)
  · intro hmem
    have := (List.mem_filter.mp hmem).2
    rw [hfail] at this
    exact Bool.noConfusion this
  · exact removeAllM_filter clients sendOk

/-- C3 witness: with clients [1, 2, 3] where only 2's send fails, 1 and 3
receive the message and 2 is pruned from the list. -/
theorem C3_witness :
    (1 : Nat) ∈ [1, 2, 3] ∧ (2 : Nat) ∈ [1, 2, 3] ∧
      ((1 : Nat), Json.null) ∈
        (broadcast_message [1, 2, 3] (fun c => c % 2 == 1) Json.null).2 ∧
      (2 : Nat) ∉ (broadcast_message [1, 2, 3] (fun c => c % 2 == 1) Json.null).1 :=
  ⟨by decide, by decide,
   (C3_broadcast_deliver_or_prune [1, 2, 3] (fun c => c % 2 == 1) Json.null 1
     (by decide)).1 rfl,
   ((C3_broadcast_deliver_or_prune [1, 2, 3] (fun c => c % 2 == 1) Json.null 2
     (by decide)).2).1 rfl⟩

end DynamicStudio

namespace DynamicStudio

theorem dispatch_no_parse_log (s : StudioState) (sendOk : Nat → Bool) (data : Json)
    (ts : String) (r : StudioState × List Json × List LogEvent)
    (h : dispatchCore s sendOk data ts = .ok r) :
    hasParseErrorLog r.2.2 = false := by
  unfold dispatchCore at h
  cases hmt : pyGet data "type" with
  | error e => rw [hmt] at h; exact Except.noConfusion h
  | ok mt =>
    rw [hmt] at h
    repeat
      first
      | exact Except.noConfusion h
      | (injection h with h2; subst h2; rfl)
      | split at h

/-- C4 counterexample: the well-formed frame with body x = 1 has no "type"
field (`data.get("type")` yields None), yet handling it logs an unknown-type
warning and no DecodeError — the claim says a missing `type` produces a
DecodeError. -/
theorem C4_counterexample :
    pyGet (Json.obj [("x", Json.num 1)]) "type" = .ok Json.null ∧
      hasParseErrorLog
        ((handle_message (studioInit none) (fun _ => true)
          (.ok (Json.obj [("x", Json.num 1)])) "t").2.2) = false ∧
      handle_message (studioInit none) (fun _ => true)
        (.ok (Json.obj [("x", Json.num 1)])) "t"
        = (studioInit none, [], [LogEvent.warnUnknownType Json.null]) :=
  ⟨rfl, rfl, rfl⟩

/-- C4 (amended): a DecodeError is logged exactly when `json.loads` fails,
i.e. when the frame text is not well-formed; a well-formed frame — including
one whose `type` field is absent — never produces a DecodeError (an absent or
unrecognized `type` is dropped at dispatch time instead). -/
theorem C4_decode_error_iff_malformed (s : StudioState) (sendOk : Nat → Bool)
    (ts : String) :
    (∀ e : JsonParseError,
       hasParseErrorLog ((handle_message s sendOk (.error e) ts).2.2) = true) ∧
    (∀ data : Json,
       hasParseErrorLog ((handle_message s sendOk (.ok data) ts).2.2) = false) := by
  constructor
  · intro e
    rfl
  · intro data
    cases hd : dispatchCore s sendOk data ts with
    | ok r =>
      have hm : handle_message s sendOk (.ok data) ts = r := by
        show (match dispatchCore s sendOk data ts with
              | .ok r2 => r2
              | .error e2 => (s, [], [LogEvent.errorHandling e2])) = r
        rw [hd]
      rw [hm]
      exact dispatch_no_parse_log s sendOk data ts r hd
    | error e =>
      have hm : handle_message s sendOk (.ok data) ts
          = (s, [], [LogEvent.errorHandling e]) := by
        show (match dispatchCore s sendOk data ts with
              | .ok r2 => r2
              | .error e2 => (s, [], [LogEvent.errorHandling e2])) =
            (s, [], [LogEvent.errorHandling e])
        rw [hd]
      rw [hm]
      rfl

end DynamicStudio

namespace DynamicStudio

theorem jsonStrEq_true {j : Json} {s : String} (h : jsonStrEq j s = true) :
    j = Json.str s := by
  cases j <;> simp [jsonStrEq] at h
  rename_i s2
  rw [h]

theorem getField_setField_ne (fs : List (String × Json)) (k k2 : String) (v : Json)
    (h : (k == k2) = false) :
    getField (setField fs k v) k2 = getField fs k2 := by
  induction fs with
  | nil => simp [setField, getField, h]
  | cons f fs ih =>
    cases hf : f.1 == k
    · cases hf2 : f.1 == k2 <;> simp [setField, getField, hf, hf2, ih]
    · have hf2 : (f.1 == k2) = false := by
        have hfk : f.1 = k := by simpa using hf
        rw [hfk]
        exact h
      simp [setField, getField, hf, hf2]

theorem getField_dictUpdate (key : String) (ps : List (String × Json))
    (hps : (ps.all fun p => !(p.1 == key)) = true) :
    ∀ cf, getField (dictUpdate cf ps) key = getField cf key := by
  induction ps with
  | nil => intro cf; rfl
  | cons p ps ih =>
    intro cf
    simp only [List.all_cons, Bool.and_eq_true, Bool.not_eq_true'] at hps
    have hrest : (ps.all fun p => !(p.1 == key)) = true := by
      simpa using hps.2
    show getField (dictUpdate (setField cf p.1 p.2) ps) key = getField cf key
    rw [ih hrest, getField_setField_ne _ _ _ _ hps.1]

theorem registryInv_setEntry (reg : List (Json × Json)) (k : String)
    (cf : List (String × Json)) (h : registryInv reg = true)
    (hk : (k == "") = false) (hid : getField cf "id" = some (Json.str k)) :
    registryInv (setEntry reg (Json.str k) (Json.obj cf)) = true := by
  induction reg with
  | nil => simp [registryInv, setEntry, entryInv, hid, hk]
  | cons e es ih =>
    simp only [registryInv, List.all_cons, Bool.and_eq_true] at h
    obtain ⟨he, hes⟩ := h
    cases hkeq : keyEq e.1 (Json.str k)
    · simp only [setEntry, hkeq, Bool.false_eq_true, if_false, registryInv,
        List.all_cons, Bool.and_eq_true]
      exact ⟨he, ih hes⟩
    · obtain ⟨k1, v⟩ := e
      cases k1 <;> simp [keyEq] at hkeq
      rename_i k0
      have hk0 : k0 = k := hkeq
      subst hk0
      have hcond : keyEq (Json.str k0) (Json.str k0) = true := by simp [keyEq]
      simp only [setEntry, hcond, if_true, registryInv, List.all_cons,
        Bool.and_eq_true]
      refine ⟨?_, hes⟩
      simp [entryInv, hid, hk]

theorem registryInv_update (reg : List (Json × Json)) (cid : Json)
    (cf ps : List (String × Json)) (h : registryInv reg = true)
    (hps : (ps.all fun p => !(p.1 == "id")) = true)
    (hlk : lookupEntry reg cid = some (Json.obj cf)) :
    registryInv (setEntry reg cid (Json.obj (dictUpdate cf ps))) = true := by
  induction reg with
  | nil => exact Option.noConfusion hlk
  | cons e es ih =>
    simp only [registryInv, List.all_cons, Bool.and_eq_true] at h
    obtain ⟨he, hes⟩ := h
    cases hkeq : keyEq e.1 cid
    · have hlk2 : lookupEntry es cid = some (Json.obj cf) := by
        simpa [lookupEntry, hkeq] using hlk
      simp only [setEntry, hkeq, Bool.false_eq_true, if_false, registryInv,
        List.all_cons, Bool.and_eq_true]
      exact ⟨he, ih hes hlk2⟩
    · have hv : e.2 = Json.obj cf := by
        simpa [lookupEntry, hkeq] using hlk
      obtain ⟨k1, v⟩ := e
      simp only at hv
      subst hv
      cases k1 <;> simp [entryInv] at he
      rename_i k0
      obtain ⟨hk0, hid0⟩ := he
      simp only [setEntry, hkeq, if_true, registryInv, List.all_cons,
        Bool.and_eq_true]
      refine ⟨?_, hes⟩
      cases hgf : getField cf "id" with
      | none => rw [hgf] at hid0; simp at hid0
      | some idv =>
        rw [hgf] at hid0
        cases idv <;> simp at hid0
        rename_i k2
        have hps2 : (ps.all fun p => !(p.1 == "id")) = true := hps
        have hk2 : ¬k2 = "" := hid0 ▸ hk0
        simp [entryInv, getField_dictUpdate "id" ps hps2 cf, hgf, hid0, hk0, hk2]

theorem registryInv_delEntry (reg : List (Json × Json)) (k : Json)
    (h : registryInv reg = true) : registryInv (delEntry reg k) = true := by
  induction reg with
  | nil => rfl
  | cons e es ih =>
    simp only [registryInv, List.all_cons, Bool.and_eq_true] at h
    cases hkeq : keyEq e.1 k
    · simp only [delEntry, hkeq, Bool.false_eq_true, if_false, registryInv,
        List.all_cons, Bool.and_eq_true]
      exact ⟨h.1, ih h.2⟩
    · simpa [delEntry, hkeq, registryInv] using h.2

end DynamicStudio

namespace DynamicStudio

theorem inv_handle_ui_update (s : StudioState) (sendOk : Nat → Bool)
    (component : Json) (ts : String) (r : StudioState × List Json)
    (h : registryInv s.components = true)
    (hb : benignComponentJ component = true)
    (hr : handle_ui_update s sendOk component ts = .ok r) :
    registryInv r.1.components = true := by
  unfold handle_ui_update at hr
  split at hr
  · exact Except.noConfusion hr
  next component_id heq =>
    split at hr
    next htr =>
      split at hr
      next hhash =>
        injection hr with hr2
        subst hr2
        show registryInv (setEntry s.components component_id component) = true
        cases component with
        | null => exact Except.noConfusion heq
        | bool b => exact Except.noConfusion heq
        | num n => exact Except.noConfusion heq
        | str s2 => exact Except.noConfusion heq
        | arr l => exact Except.noConfusion heq
        | obj cf =>
          simp only [pyGet, Except.ok.injEq] at heq
          simp only [benignComponentJ] at hb
          rw [heq, htr] at hb
          rw [if_pos rfl] at hb
          cases component_id <;> simp at hb
          rename_i k
          have hkne : ¬k = "" := by simpa [truthy] using htr
          have hkf : (k == "") = false := beq_eq_false_iff_ne.mpr hkne
          cases hgf : getField cf "id" with
          | none => rw [hgf] at heq; exact Json.noConfusion heq
          | some v =>
            rw [hgf] at heq
            simp only [Option.getD] at heq
            rw [heq] at hgf
            exact registryInv_setEntry s.components k cf h hkf hgf
      next => exact Except.noConfusion hr
    next htr =>
      injection hr with hr2
      subst hr2
      exact h

end DynamicStudio

namespace DynamicStudio

theorem inv_handle_component_create (s : StudioState) (sendOk : Nat → Bool)
    (component : Json) (ts : String) (r : StudioState × List Json)
    (h : registryInv s.components = true)
    (hb : benignComponentJ component = true)
    (hr : handle_component_create s sendOk component ts = .ok r) :
    registryInv r.1.components = true := by
  unfold handle_component_create at hr
  split at hr
  · exact Except.noConfusion hr
  next idv heq1 =>
    split at hr
    · exact Except.noConfusion hr
    next component_id heq2 =>
      split at hr
      next htr =>
        split at hr
        next hhash =>
          injection hr with hr2
          subst hr2
          show registryInv (setEntry s.components component_id component) = true
          cases component with
          | null => exact Except.noConfusion heq1
          | bool b => exact Except.noConfusion heq1
          | num n => exact Except.noConfusion heq1
          | str s2 => exact Except.noConfusion heq1
          | arr l => exact Except.noConfusion heq1
          | obj cf =>
            simp only [pyGet, Except.ok.injEq] at heq1
            simp only [benignComponentJ] at hb
            rw [heq1] at hb
            cases hti : truthy idv with
            | true =>
              rw [hti, if_pos rfl] at hb
              rw [hti, if_pos rfl] at heq2
              injection heq2 with heq2b
              subst heq2b
              cases idv <;> simp at hb
              rename_i k
              have hkne : ¬k = "" := by simpa [truthy] using htr
              have hkf : (k == "") = false := beq_eq_false_iff_ne.mpr hkne
              cases hgf : getField cf "id" with
              | none => rw [hgf] at heq1; exact Json.noConfusion heq1
              | some v =>
                rw [hgf] at heq1
                simp only [Option.getD] at heq1
                rw [heq1] at hgf
                exact registryInv_setEntry s.components k cf h hkf hgf
            | false =>
              rw [hti, if_neg Bool.false_ne_true] at hb
              rw [hti, if_neg Bool.false_ne_true] at heq2
              simp only [pyGet, Except.ok.injEq] at heq2
              rw [heq2, htr] at hb
              simp at hb
        next => exact Except.noConfusion hr
      next htr =>
        injection hr with hr2
        subst hr2
        exact h

theorem inv_handle_component_update (s : StudioState) (sendOk : Nat → Bool)
    (component_id props : Json) (ts : String) (r : StudioState × List Json)
    (h : registryInv s.components = true)
    (hb : (match props with
           | Json.obj ps => ps.all fun p => !(p.1 == "id")
           | _ => false) = true)
    (hr : handle_component_update s sendOk component_id props ts = .ok r) :
    registryInv r.1.components = true := by
  unfold handle_component_update at hr
  split at hr
  · split at hr
    next comp hlk =>
      split at hr
      next cf ps =>
        injection hr with hr2
        subst hr2
        show registryInv (setEntry s.components component_id (Json.obj (dictUpdate cf ps))) = true
        exact registryInv_update s.components component_id cf ps h (by simpa using hb) hlk
      next => exact Except.noConfusion hr
    next hlk =>
      injection hr with hr2
      subst hr2
      exact h
  · exact Except.noConfusion hr

theorem inv_handle_component_delete (s : StudioState) (sendOk : Nat → Bool)
    (component_id : Json) (ts : String) (r : StudioState × List Json)
    (h : registryInv s.components = true)
    (hr : handle_component_delete s sendOk component_id ts = .ok r) :
    registryInv r.1.components = true := by
  unfold handle_component_delete at hr
  split at hr
  · split at hr
    next comp hlk =>
      injection hr with hr2
      subst hr2
      show registryInv (delEntry s.components component_id) = true
      exact registryInv_delEntry s.components component_id h
    next hlk =>
      injection hr with hr2
      subst hr2
      exact h
  · exact Except.noConfusion hr

end DynamicStudio

namespace DynamicStudio

theorem inv_dispatchCore (s : StudioState) (sendOk : Nat → Bool) (data : Json)
    (ts : String) (r : StudioState × List Json × List LogEvent)
    (h : registryInv s.components = true)
    (hb : benignMsg data = true)
    (hr : dispatchCore s sendOk data ts = .ok r) :
    registryInv r.1.components = true := by
  unfold dispatchCore at hr
  split at hr
  · exact Except.noConfusion hr
  next message_type heq =>
    cases data with
    | null => exact Except.noConfusion heq
    | bool b => exact Except.noConfusion heq
    | num n => exact Except.noConfusion heq
    | str s2 => exact Except.noConfusion heq
    | arr l => exact Except.noConfusion heq
    | obj fs =>
      simp only [pyGet, Except.ok.injEq] at heq
      simp only [benignMsg] at hb
      rw [heq] at hb
      split at hr
      next hc1 =>
        rw [hc1, if_pos rfl] at hb
        split at hr
        · exact Except.noConfusion hr
        next component heqc =>
          split at hr
          · exact Except.noConfusion hr
          next r1 hru =>
            injection hr with hr2
            subst hr2
            simp only [pyGet, Except.ok.injEq] at heqc
            rw [heqc] at hb
            exact inv_handle_ui_update s sendOk component ts r1 h hb hru
      next hc1 =>
        simp only [hc1, if_false] at hb
        split at hr
        next hc2 =>
          split at hr
          · exact Except.noConfusion hr
          next tool heqt =>
            split at hr
            · exact Except.noConfusion hr
            next args heqa =>
              split at hr
              · exact Except.noConfusion hr
              next r1 hrt =>
                injection hr with hr2
                subst hr2
                unfold handle_mcp_tool_call at hrt
                injection hrt with hrt2
                subst hrt2
                exact h
        next hc2 =>
          split at hr
          next hc3 =>
            rw [hc3, if_pos rfl] at hb
            split at hr
            · exact Except.noConfusion hr
            next component heqc =>
              split at hr
              · exact Except.noConfusion hr
              next r1 hrc =>
                injection hr with hr2
                subst hr2
                simp only [pyGet, Except.ok.injEq] at heqc
                rw [heqc] at hb
                exact inv_handle_component_create s sendOk component ts r1 h hb hrc
          next hc3 =>
            simp only [hc3, if_false] at hb
            split at hr
            next hc4 =>
              rw [hc4, if_pos rfl] at hb
              split at hr
              · exact Except.noConfusion hr
              next component_id heqi =>
                split at hr
                · exact Except.noConfusion hr
                next props heqp =>
                  split at hr
                  · exact Except.noConfusion hr
                  next r1 hruu =>
                    injection hr with hr2
                    subst hr2
                    simp only [pyGet, Except.ok.injEq] at heqp
                    rw [heqp] at hb
                    exact inv_handle_component_update s sendOk component_id props ts r1 h hb hruu
            next hc4 =>
              split at hr
              next hc5 =>
                split at hr
                · exact Except.noConfusion hr
                next component_id heqi =>
                  split at hr
                  · exact Except.noConfusion hr
                  next r1 hrd =>
                    injection hr with hr2
                    subst hr2
                    exact inv_handle_component_delete s sendOk component_id ts r1 h hrd
              next hc5 =>
                injection hr with hr2
                subst hr2
                exact h

theorem inv_handle_message (s : StudioState) (sendOk : Nat → Bool)
    (input : Except JsonParseError Json) (ts : String)
    (h : registryInv s.components = true)
    (hb : benignInput input = true) :
    registryInv ((handle_message s sendOk input ts).1).components = true := by
  cases input with
  | error e => exact h
  | ok data =>
    cases hd : dispatchCore s sendOk data ts with
    | ok r =>
      have hm : handle_message s sendOk (.ok data) ts = r := by
        show (match dispatchCore s sendOk data ts with
              | .ok r2 => r2
              | .error e2 => (s, [], [LogEvent.errorHandling e2])) = r
        rw [hd]
      rw [hm]
      exact inv_dispatchCore s sendOk data ts r h hb hd
    | error e =>
      have hm : handle_message s sendOk (.ok data) ts
          = (s, [], [LogEvent.errorHandling e]) := by
        show (match dispatchCore s sendOk data ts with
              | .ok r2 => r2
              | .error e2 => (s, [], [LogEvent.errorHandling e2])) =
            (s, [], [LogEvent.errorHandling e])
        rw [hd]
      rw [hm]
      exact h

/-- C2 (amended): after every sequence of handled inbound messages in which
each create or studio-update payload's component carries its id as a
non-empty string (and is dropped when both id and componentId are falsy), and
each component.update carries a props dict that does not touch the "id" key,
every component in the registry is stored under a key equal to its own
non-empty string "id" field.  (As stated the claim is false: create also
accepts a componentId-only component, storing it under a key its missing "id"
field does not match, and an update whose props contain "id" overwrites the
stored id — see the counterexample.) -/
theorem C2_registry_invariant_benign (s : StudioState)
    (msgs : List (Except JsonParseError Json × (Nat → Bool) × String))
    (hs : registryInv s.components = true)
    (hb : ∀ m ∈ msgs, benignInput m.1 = true) :
    registryInv ((processAll s msgs).components) = true := by
  induction msgs generalizing s with
  | nil => exact hs
  | cons m ms ih =>
    show registryInv ((processAll ((handle_message s m.2.1 m.1 m.2.2).1) ms).components) = true
    exact ih ((handle_message s m.2.1 m.1 m.2.2).1)
      (inv_handle_message s m.2.1 m.1 m.2.2 hs (hb m (List.mem_cons_self m ms)))
      (fun m2 hm2 => hb m2 (List.mem_cons_of_mem m hm2))

/-- C2 witness: a benign create followed by a benign props update keeps the
invariant. -/
theorem C2_witness :
    registryInv ((processAll (studioInit none)
      [(.ok (Json.obj [("type", Json.str "ui.component.create"),
                       ("component", Json.obj [("id", Json.str "c1"),
                                               ("kind", Json.str "button"),
                                               ("props", Json.obj [("label", Json.str "Go")])])]),
        fun _ => true, "t1"),
       (.ok (Json.obj [("type", Json.str "ui.component.update"),
                       ("componentId", Json.str "c1"),
                       ("props", Json.obj [("label", Json.str "Stop")])]),
        fun _ => true, "t2")]).components) = true :=
  C2_registry_invariant_benign (studioInit none) _ rfl (by decide)

/-- C2 counterexample: a component.create whose component carries only a
componentId is stored under the key "c1" while its own "id" field is absent,
so the invariant exactly as the claim states it is already false after one
handled message. -/
theorem C2_counterexample :
    registryInv (((handle_message (studioInit none) (fun _ => true)
      (.ok (Json.obj [("type", Json.str "ui.component.create"),
                      ("component", Json.obj [("componentId", Json.str "c1"),
                                              ("kind", Json.str "button")])])) "t").1).components)
      = false := rfl

end DynamicStudio
